import Mathlib

/-!
# Verification of the `ciebase` CRI pipeline

Shallow embedding of the repository's two source files:

* `src/cri.rs` — the CIE Color Rendering Index computation: the `cd` and
  `uv_kries` chromatic-adaptation formulas, the `TCS5` embedded 5 nm dataset,
  the interpolated `TCS` colorant array, and the `TryFrom<&Illuminant> for CRI`
  pipeline (`try_from`).
* `src/stimulus.rs` — `Stimulus`: `set_luminance` and scalar multiplication.

`f64` values are modelled as real numbers (`ℝ`); the spectral reflectance
table is kept exact as rationals (`ℚ`).  Operations the pipeline takes from
the rest of the crate (spectral types, the CIE 1931 observer, the CCT
estimator, illuminant constructors) are not part of the two source files;
the pipeline is therefore embedded generically over a record `ColorOps` of
those operations, and theorems quantify over every possible instantiation.
-/

namespace Ciebase

/-! ## `cri.rs`: the chromatic-adaptation formulas (source lines 178–189) -/

/-- Number of Test Color Sample spectra (`const N_TCS: usize = 14`). -/
def N_TCS : ℕ := 14

/-- Source function `fn cd(uv60: [f64;2]) -> [f64;2]` (cri.rs:178-181):
adaptation coefficients from a 1960 UCS chromaticity pair. -/
noncomputable def cd (uv60 : ℝ × ℝ) : ℝ × ℝ :=
  ((4 - uv60.1 - 10 * uv60.2) / uv60.2,
   (1.708 * uv60.2 - 1.481 * uv60.1 + 0.404) / uv60.2)

/-- Source function `fn uv_kries(cdt, cdr, cdti) -> [f64;2]` (cri.rs:183-189):
the von Kries adapted chromaticity. -/
noncomputable def uv_kries (cdt cdr cdti : ℝ × ℝ) : ℝ × ℝ :=
  let ct := cdt.1
  let dt := cdt.2
  let cr := cdr.1
  let dr := cdr.2
  let cti := cdti.1
  let dti := cdti.2
  let den := 16.518 + 1.481 * (cr / ct) * cti - (dr / dt) * dti
  ((10.872 + 0.404 * (cr / ct) * cti - 4 * (dr / dt) * dti) / den, 5.520 / den)

/-! ## The TCS dataset -/

/-- A `Colorant` wraps a `Spectrum`; the `Spectrum` type lives outside the two
source files and is modelled as its ordered list of samples (values exact,
as rationals). -/
structure Colorant where
  vals : List ℚ
  deriving DecidableEq

/-- Modelled from the spec: `Spectrum::linear_interpolate(&[380.0, 780.0], s)`
is not among the two source files.  The spec (§3, §6) says the TCS data is
built by "linear-interpolating a fixed, standardized 5 nm-resolution dataset
onto the working grid" and that `Spectrum` "supports linear interpolation from
an arbitrary source grid onto the working grid" (380–780 nm at 1 nm, 401
samples).  Sample `k` of the output lies at wavelength `380 + k`; it falls
between source nodes `k / 5` and `k / 5 + 1` at fraction `(k % 5) / 5`. -/
def linear_interpolate (vals : List ℚ) : List ℚ :=
  (List.range 401).map (fun k =>
    let i := k / 5
    let r : ℚ := (k % 5 : ℕ)
    vals.getD i 0 + (r / 5) * (vals.getD (i + 1) 0 - vals.getD i 0))

/-- Embedded table `static TCS5: SMatrix<f64, 81, N_TCS>` (cri.rs:198-285): the embedded
5 nm-resolution spectral radiance factors of the 14 test samples, one column
(81 values, 380-780 nm) per sample, kept exact as rationals. -/
def TCS5 : List (List ℚ) := [
  [0.219, 0.239, 0.252, 0.256, 0.256, 0.254, 0.252, 0.248, 0.244, 0.24, 0.237, 0.232, 0.23, 
   0.226, 0.225, 0.222, 0.22, 0.218, 0.216, 0.214, 0.214, 0.214, 0.216, 0.218, 0.223, 0.225, 
   0.226, 0.226, 0.225, 0.225, 0.227, 0.23, 0.236, 0.245, 0.253, 0.262, 0.272, 0.283, 0.298, 
   0.318, 0.341, 0.367, 0.39, 0.409, 0.424, 0.435, 0.442, 0.448, 0.45, 0.451, 0.451, 0.451, 
   0.451, 0.451, 0.45, 0.45, 0.451, 0.451, 0.453, 0.454, 0.455, 0.457, 0.458, 0.46, 0.462, 0.463, 
   0.464, 0.465, 0.466, 0.466, 0.466, 0.466, 0.467, 0.467, 0.467, 0.467, 0.467, 0.467, 0.467, 
   0.467, 0.467],
  [0.07, 0.079, 0.089, 0.101, 0.111, 0.116, 0.118, 0.12, 0.121, 0.122, 0.122, 0.122, 0.123, 
   0.124, 0.127, 0.128, 0.131, 0.134, 0.138, 0.143, 0.15, 0.159, 0.174, 0.19, 0.207, 0.225, 
   0.242, 0.253, 0.26, 0.264, 0.267, 0.269, 0.272, 0.276, 0.282, 0.289, 0.299, 0.309, 0.322, 
   0.329, 0.335, 0.339, 0.341, 0.341, 0.342, 0.342, 0.342, 0.341, 0.341, 0.339, 0.339, 0.338, 
   0.338, 0.337, 0.336, 0.335, 0.334, 0.332, 0.332, 0.331, 0.331, 0.33, 0.329, 0.328, 0.328, 
   0.327, 0.326, 0.325, 0.324, 0.324, 0.324, 0.323, 0.322, 0.321, 0.32, 0.318, 0.316, 0.315, 
   0.315, 0.314, 0.314],
  [0.065, 0.068, 0.07, 0.072, 0.073, 0.073, 0.074, 0.074, 0.074, 0.073, 0.073, 0.073, 0.073, 
   0.073, 0.074, 0.075, 0.077, 0.08, 0.085, 0.094, 0.109, 0.126, 0.148, 0.172, 0.198, 0.221, 
   0.241, 0.26, 0.278, 0.302, 0.339, 0.37, 0.392, 0.399, 0.4, 0.393, 0.38, 0.365, 0.349, 0.332, 
   0.315, 0.299, 0.285, 0.272, 0.264, 0.257, 0.252, 0.247, 0.241, 0.235, 0.229, 0.224, 0.22, 
   0.217, 0.216, 0.216, 0.219, 0.224, 0.23, 0.238, 0.251, 0.269, 0.288, 0.312, 0.34, 0.366, 0.39, 
   0.412, 0.431, 0.447, 0.46, 0.472, 0.481, 0.488, 0.493, 0.497, 0.5, 0.502, 0.505, 0.51, 0.516],
  [0.074, 0.083, 0.093, 0.105, 0.116, 0.121, 0.124, 0.126, 0.128, 0.131, 0.135, 0.139, 0.144, 
   0.151, 0.161, 0.172, 0.186, 0.205, 0.229, 0.254, 0.281, 0.308, 0.332, 0.352, 0.37, 0.383, 
   0.39, 0.394, 0.395, 0.392, 0.385, 0.377, 0.367, 0.354, 0.341, 0.327, 0.312, 0.296, 0.28, 
   0.263, 0.247, 0.229, 0.214, 0.198, 0.185, 0.175, 0.169, 0.164, 0.16, 0.156, 0.154, 0.152, 
   0.151, 0.149, 0.148, 0.148, 0.148, 0.149, 0.151, 0.154, 0.158, 0.162, 0.165, 0.168, 0.17, 
   0.171, 0.17, 0.168, 0.166, 0.164, 0.164, 0.165, 0.168, 0.172, 0.177, 0.181, 0.185, 0.189, 
   0.192, 0.194, 0.197],
  [0.295, 0.306, 0.31, 0.312, 0.313, 0.315, 0.319, 0.322, 0.326, 0.33, 0.334, 0.339, 0.346, 
   0.352, 0.36, 0.369, 0.381, 0.394, 0.403, 0.41, 0.415, 0.418, 0.419, 0.417, 0.413, 0.409, 
   0.403, 0.396, 0.389, 0.381, 0.372, 0.363, 0.353, 0.342, 0.331, 0.32, 0.308, 0.296, 0.284, 
   0.271, 0.26, 0.247, 0.232, 0.22, 0.21, 0.2, 0.194, 0.189, 0.185, 0.183, 0.18, 0.177, 0.176, 
   0.175, 0.175, 0.175, 0.175, 0.177, 0.18, 0.183, 0.186, 0.189, 0.192, 0.195, 0.199, 0.2, 0.199, 
   0.198, 0.196, 0.195, 0.195, 0.196, 0.197, 0.2, 0.203, 0.205, 0.208, 0.212, 0.215, 0.217, 0.219],
  [0.151, 0.203, 0.265, 0.339, 0.41, 0.464, 0.492, 0.508, 0.517, 0.524, 0.531, 0.538, 0.544, 
   0.551, 0.556, 0.556, 0.554, 0.549, 0.541, 0.531, 0.519, 0.504, 0.488, 0.469, 0.45, 0.431, 
   0.414, 0.395, 0.377, 0.358, 0.341, 0.325, 0.309, 0.293, 0.279, 0.265, 0.253, 0.241, 0.234, 
   0.227, 0.225, 0.222, 0.221, 0.22, 0.22, 0.22, 0.22, 0.22, 0.223, 0.227, 0.233, 0.239, 0.244, 
   0.251, 0.258, 0.263, 0.268, 0.273, 0.278, 0.281, 0.283, 0.286, 0.291, 0.296, 0.302, 0.313, 
   0.325, 0.338, 0.351, 0.364, 0.376, 0.389, 0.401, 0.413, 0.425, 0.436, 0.447, 0.458, 0.469, 
   0.477, 0.485],
  [0.378, 0.459, 0.524, 0.546, 0.551, 0.555, 0.559, 0.56, 0.561, 0.558, 0.556, 0.551, 0.544, 
   0.535, 0.522, 0.506, 0.488, 0.469, 0.448, 0.429, 0.408, 0.385, 0.363, 0.341, 0.324, 0.311, 
   0.301, 0.291, 0.283, 0.273, 0.265, 0.26, 0.257, 0.257, 0.259, 0.26, 0.26, 0.258, 0.256, 0.254, 
   0.254, 0.259, 0.27, 0.284, 0.302, 0.324, 0.344, 0.362, 0.377, 0.389, 0.4, 0.41, 0.42, 0.429, 
   0.438, 0.445, 0.452, 0.457, 0.462, 0.466, 0.468, 0.47, 0.473, 0.477, 0.483, 0.489, 0.496, 
   0.503, 0.511, 0.518, 0.525, 0.532, 0.539, 0.546, 0.553, 0.559, 0.565, 0.57, 0.575, 0.578, 0.581],
  [0.104, 0.129, 0.17, 0.24, 0.319, 0.416, 0.462, 0.482, 0.49, 0.488, 0.482, 0.473, 0.462, 0.45, 
   0.439, 0.426, 0.413, 0.397, 0.382, 0.366, 0.352, 0.337, 0.325, 0.31, 0.299, 0.289, 0.283, 
   0.276, 0.27, 0.262, 0.256, 0.251, 0.25, 0.251, 0.254, 0.258, 0.264, 0.269, 0.272, 0.274, 
   0.278, 0.284, 0.295, 0.316, 0.348, 0.384, 0.434, 0.482, 0.528, 0.568, 0.604, 0.629, 0.648, 
   0.663, 0.676, 0.685, 0.693, 0.7, 0.705, 0.709, 0.712, 0.715, 0.717, 0.719, 0.721, 0.72, 0.719, 
   0.722, 0.725, 0.727, 0.729, 0.73, 0.73, 0.73, 0.73, 0.73, 0.73, 0.73, 0.73, 0.73, 0.73],
  [0.066, 0.062, 0.058, 0.055, 0.052, 0.052, 0.051, 0.05, 0.05, 0.049, 0.048, 0.047, 0.046, 
   0.044, 0.042, 0.041, 0.038, 0.035, 0.033, 0.031, 0.03, 0.029, 0.028, 0.028, 0.028, 0.029, 
   0.03, 0.03, 0.031, 0.031, 0.032, 0.032, 0.033, 0.034, 0.035, 0.037, 0.041, 0.044, 0.048, 
   0.052, 0.06, 0.076, 0.102, 0.136, 0.19, 0.256, 0.336, 0.418, 0.505, 0.581, 0.641, 0.682, 
   0.717, 0.74, 0.758, 0.77, 0.781, 0.79, 0.797, 0.803, 0.809, 0.814, 0.819, 0.824, 0.828, 0.83, 
   0.831, 0.833, 0.835, 0.836, 0.836, 0.837, 0.838, 0.839, 0.839, 0.839, 0.839, 0.839, 0.839, 
   0.839, 0.839],
  [0.05, 0.054, 0.059, 0.063, 0.066, 0.067, 0.068, 0.069, 0.069, 0.07, 0.072, 0.073, 0.076, 
   0.078, 0.083, 0.088, 0.095, 0.103, 0.113, 0.125, 0.142, 0.162, 0.189, 0.219, 0.262, 0.305, 
   0.365, 0.416, 0.465, 0.509, 0.546, 0.581, 0.61, 0.634, 0.653, 0.666, 0.678, 0.687, 0.693, 
   0.698, 0.701, 0.704, 0.705, 0.705, 0.706, 0.707, 0.707, 0.707, 0.708, 0.708, 0.71, 0.711, 
   0.712, 0.714, 0.716, 0.718, 0.72, 0.722, 0.725, 0.729, 0.731, 0.735, 0.739, 0.742, 0.746, 
   0.748, 0.749, 0.751, 0.753, 0.754, 0.755, 0.755, 0.755, 0.755, 0.756, 0.757, 0.758, 0.759, 
   0.759, 0.759, 0.759],
  [0.111, 0.121, 0.127, 0.129, 0.127, 0.121, 0.116, 0.112, 0.108, 0.105, 0.104, 0.104, 0.105, 
   0.106, 0.11, 0.115, 0.123, 0.134, 0.148, 0.167, 0.192, 0.219, 0.252, 0.291, 0.325, 0.347, 
   0.356, 0.353, 0.346, 0.333, 0.314, 0.294, 0.271, 0.248, 0.227, 0.206, 0.188, 0.17, 0.153, 
   0.138, 0.125, 0.114, 0.106, 0.1, 0.096, 0.092, 0.09, 0.087, 0.085, 0.082, 0.08, 0.079, 0.078, 
   0.078, 0.078, 0.078, 0.081, 0.083, 0.088, 0.093, 0.102, 0.112, 0.125, 0.141, 0.161, 0.182, 
   0.203, 0.223, 0.242, 0.257, 0.27, 0.282, 0.292, 0.302, 0.31, 0.314, 0.317, 0.323, 0.33, 0.334, 
   0.338],
  [0.12, 0.103, 0.09, 0.082, 0.076, 0.068, 0.064, 0.065, 0.075, 0.093, 0.123, 0.16, 0.207, 0.256, 
   0.3, 0.331, 0.346, 0.347, 0.341, 0.328, 0.307, 0.282, 0.257, 0.23, 0.204, 0.178, 0.154, 0.129, 
   0.109, 0.09, 0.075, 0.062, 0.051, 0.041, 0.035, 0.029, 0.025, 0.022, 0.019, 0.017, 0.017, 
   0.017, 0.016, 0.016, 0.016, 0.016, 0.016, 0.016, 0.016, 0.016, 0.018, 0.018, 0.018, 0.018, 
   0.019, 0.02, 0.023, 0.024, 0.026, 0.03, 0.035, 0.043, 0.056, 0.074, 0.097, 0.128, 0.166, 0.21, 
   0.257, 0.305, 0.354, 0.401, 0.446, 0.485, 0.52, 0.551, 0.577, 0.599, 0.618, 0.633, 0.645],
  [0.104, 0.127, 0.161, 0.211, 0.264, 0.313, 0.341, 0.352, 0.359, 0.361, 0.364, 0.365, 0.367, 
   0.369, 0.372, 0.374, 0.376, 0.379, 0.384, 0.389, 0.397, 0.405, 0.416, 0.429, 0.443, 0.454, 
   0.461, 0.466, 0.469, 0.471, 0.474, 0.476, 0.483, 0.49, 0.506, 0.526, 0.553, 0.582, 0.618, 
   0.651, 0.68, 0.701, 0.717, 0.729, 0.736, 0.742, 0.745, 0.747, 0.748, 0.748, 0.748, 0.748, 
   0.748, 0.748, 0.748, 0.748, 0.747, 0.747, 0.747, 0.747, 0.747, 0.747, 0.747, 0.746, 0.746, 
   0.746, 0.745, 0.744, 0.743, 0.744, 0.745, 0.748, 0.75, 0.75, 0.749, 0.748, 0.748, 0.747, 
   0.747, 0.747, 0.747],
  [0.036, 0.036, 0.037, 0.038, 0.039, 0.039, 0.04, 0.041, 0.042, 0.042, 0.043, 0.044, 0.044, 
   0.045, 0.045, 0.046, 0.047, 0.048, 0.05, 0.052, 0.055, 0.057, 0.062, 0.067, 0.075, 0.083, 
   0.092, 0.1, 0.108, 0.121, 0.133, 0.142, 0.15, 0.154, 0.155, 0.152, 0.147, 0.14, 0.133, 0.125, 
   0.118, 0.112, 0.106, 0.101, 0.098, 0.095, 0.093, 0.09, 0.089, 0.087, 0.086, 0.085, 0.084, 
   0.084, 0.084, 0.084, 0.085, 0.087, 0.092, 0.096, 0.102, 0.11, 0.123, 0.137, 0.152, 0.169, 
   0.188, 0.207, 0.226, 0.243, 0.26, 0.277, 0.294, 0.31, 0.325, 0.339, 0.353, 0.366, 0.379, 0.39, 
   0.399]
]

/-- Interpolated array `pub static TCS: LazyLock<[Colorant; N_TCS]>` (cri.rs:24-29): the array of
14 test colorants, each the linear interpolation of one `TCS5` column onto the
380-780 nm working grid. -/
def TCS (i : Fin N_TCS) : Colorant :=
  Colorant.mk (linear_interpolate (TCS5.getD i.val []))

/-! ## The abstract external operations

Everything `try_from` uses from outside the two source files, as one record:
illuminant normalization and construction, the CIE 1931 observer, the CCT
estimator and the chromaticity/uniform-space conversions on `XYZ`. -/

/-- External collaborators of the CRI pipeline (spec §6), abstracted:
`Illum` is the `Illuminant` type, `XYZt` the tristimulus type, `Err` the
error type (`CmtError`). -/
structure ColorOps (Illum XYZt Err : Type) where
  /-- Rescaling `Illuminant::set_illuminance(&CIE1931, l)`. -/
  set_illuminance : Illum → ℝ → Illum
  /-- Observer computation `CIE1931.xyz_from_spectrum(ill, None)`. -/
  xyz_from_spectrum : Illum → XYZt
  /-- Observer computation `CIE1931.xyz(ill, Some(colorant))`. -/
  xyz_with_sample : Illum → Colorant → XYZt
  /-- Estimator `xyz.cct()?.t()` — fallible CCT estimation. -/
  cct : XYZt → Except Err ℝ
  /-- Constructor `Illuminant::planckian(t)`. -/
  planckian : ℝ → Illum
  /-- Constructor `Illuminant::d_illuminant(t)?` — fallible daylight-model construction. -/
  d_illuminant : ℝ → Except Err Illum
  /-- Conversion `xyz.uv60()` — 1960 UCS chromaticity. -/
  uv60 : XYZt → ℝ × ℝ
  /-- Projection `xyz.xyz.unwrap().y` — the luminance component. -/
  y_of : XYZt → ℝ
  /-- Reconstruction `XYZ::try_from_luv60(u, v, Some(y), None).unwrap()`. -/
  try_from_luv60 : ℝ → ℝ → ℝ → XYZt
  /-- Conversion `xyz.uvw64(white)` — 1964 U*V*W* relative to a white point. -/
  uvw64 : XYZt → XYZt → ℝ × ℝ × ℝ

namespace ColorOps

variable {Illum XYZt Err : Type}

end ColorOps

/-! ## The CRI pipeline (`TryFrom<&Illuminant> for CRI`, cri.rs:60-109) -/

section Pipeline

variable {Illum XYZt Err : Type}

/-- The reference-illuminant selection branch (cri.rs:75-79):
Planckian at `t` when `t ≤ 5000`, CIE daylight model otherwise, both rescaled
to illuminance 100. -/
noncomputable def reference_illuminant (ops : ColorOps Illum XYZt Err) (t : ℝ) :
    Except Err Illum :=
  if t ≤ 5000 then
    Except.ok (ops.set_illuminance (ops.planckian t) 100)
  else
    (ops.d_illuminant t).map (fun d => ops.set_illuminance d 100)

/-- Von Kries adaptation of one sample (cri.rs:100-102): the sample's
chromaticity under the test illuminant is adapted with `uv_kries` and combined
with the sample's own luminance `y` into a full tristimulus value. -/
noncomputable def xyz_vk (ops : ColorOps Illum XYZt Err) (cdt cdr : ℝ × ℝ)
    (xyzd : XYZt) : XYZt :=
  let cdti := cd (ops.uv60 xyzd)
  let uv := uv_kries cdt cdr cdti
  ops.try_from_luv60 uv.1 uv.2 (ops.y_of xyzd)

/-- One sample's Ri (the closure of cri.rs:99-105): the adapted tristimulus
and the reference-side tristimulus are both converted to U*V*W* relative to
the reference white `xyz_ref`, and the index is `100 − 4.6·ΔE` for their
Euclidean distance `ΔE`. -/
noncomputable def ri_sample (ops : ColorOps Illum XYZt Err) (cdt cdr : ℝ × ℝ)
    (xyz_ref xyzr xyzd : XYZt) : ℝ :=
  let uvw := ops.uvw64 (xyz_vk ops cdt cdr xyzd) xyz_ref
  let uvwr := ops.uvw64 xyzr xyz_ref
  100 - 4.6 * Real.sqrt ((uvw.1 - uvwr.1) ^ 2 + (uvw.2.1 - uvwr.2.1) ^ 2 +
    (uvw.2.2 - uvwr.2.2) ^ 2)

/-- The 14 Ri values (cri.rs:95-106) for a test/reference illuminant pair,
one per `TCS` sample, in dataset order. -/
noncomputable def ri_list (ops : ColorOps Illum XYZt Err)
    (ill_test ill_ref : Illum) : List ℝ :=
  let xyz_dut := ops.xyz_from_spectrum ill_test
  let xyz_ref := ops.xyz_from_spectrum ill_ref
  let cdt := cd (ops.uv60 xyz_dut)
  let cdr := cd (ops.uv60 xyz_ref)
  List.ofFn (fun i : Fin N_TCS =>
    ri_sample ops cdt cdr xyz_ref
      (ops.xyz_with_sample ill_ref (TCS i))
      (ops.xyz_with_sample ill_test (TCS i)))

/-- Pipeline `fn try_from(illuminant: &Illuminant) -> Result<CRI, CmtError>`
(cri.rs:60-109): normalize the test illuminant to illuminance 100, estimate
its CCT, build the reference illuminant, and map every TCS sample to its Ri.
Failure of CCT estimation (cri.rs:73) or of daylight construction (cri.rs:78)
propagates via `?`. -/
noncomputable def try_from (ops : ColorOps Illum XYZt Err)
    (illuminant : Illum) : Except Err (List ℝ) :=
  let ill := ops.set_illuminance illuminant 100
  let xyz_dut := ops.xyz_from_spectrum ill
  match ops.cct xyz_dut with
  | Except.error e => Except.error e
  | Except.ok t =>
    match reference_illuminant ops t with
    | Except.error e => Except.error e
    | Except.ok ill_ref => Except.ok (ri_list ops ill ill_ref)

/-! ### Unfolding lemmas for the pipeline -/

theorem try_from_cct_error {ops : ColorOps Illum XYZt Err}
    {ill : Illum} {e : Err}
    (h : ops.cct (ops.xyz_from_spectrum (ops.set_illuminance ill 100)) =
      Except.error e) :
    try_from ops ill = Except.error e := by
  simp [try_from, h]

theorem try_from_ref_error {ops : ColorOps Illum XYZt Err}
    {ill : Illum} {t : ℝ} {e : Err}
    (h : ops.cct (ops.xyz_from_spectrum (ops.set_illuminance ill 100)) =
      Except.ok t)
    (h2 : reference_illuminant ops t = Except.error e) :
    try_from ops ill = Except.error e := by
  simp [try_from, h, h2]

theorem try_from_ok {ops : ColorOps Illum XYZt Err}
    {ill : Illum} {t : ℝ} {r : Illum}
    (h : ops.cct (ops.xyz_from_spectrum (ops.set_illuminance ill 100)) =
      Except.ok t)
    (h2 : reference_illuminant ops t = Except.ok r) :
    try_from ops ill =
      Except.ok (ri_list ops (ops.set_illuminance ill 100) r) := by
  simp [try_from, h, h2]

theorem reference_illuminant_planck {ops : ColorOps Illum XYZt Err} {t : ℝ}
    (h : t ≤ 5000) :
    reference_illuminant ops t =
      Except.ok (ops.set_illuminance (ops.planckian t) 100) := by
  simp [reference_illuminant, h]

theorem reference_illuminant_daylight {ops : ColorOps Illum XYZt Err} {t : ℝ}
    (h : ¬ t ≤ 5000) :
    reference_illuminant ops t =
      (ops.d_illuminant t).map (fun d => ops.set_illuminance d 100) := by
  simp [reference_illuminant, h]

theorem ri_list_length {ops : ColorOps Illum XYZt Err} {a b : Illum} :
    (ri_list ops a b).length = N_TCS := by
  simp only [ri_list, List.length_ofFn]

theorem ri_list_get (ops : ColorOps Illum XYZt Err) (a b : Illum)
    (i : Fin N_TCS) :
    (ri_list ops a b).get (Fin.cast ri_list_length.symm i) =
      ri_sample ops
        (cd (ops.uv60 (ops.xyz_from_spectrum a)))
        (cd (ops.uv60 (ops.xyz_from_spectrum b)))
        (ops.xyz_from_spectrum b)
        (ops.xyz_with_sample b (TCS i))
        (ops.xyz_with_sample a (TCS i)) := by
  simp only [ri_list, List.get_ofFn]
  congr 1

end Pipeline

/-! ## Concrete instantiations of the external operations

Used to evaluate the pipeline theorems on closed inputs. -/

/-- A total instantiation in which CCT estimation always returns 4000 K, so
the Planckian branch is taken. -/
def opsP : ColorOps Unit Unit ℕ where
  set_illuminance := fun i _ => i
  xyz_from_spectrum := fun _ => ()
  xyz_with_sample := fun _ _ => ()
  cct := fun _ => Except.ok 4000
  planckian := fun _ => ()
  d_illuminant := fun _ => Except.ok ()
  uv60 := fun _ => (1, 1)
  y_of := fun _ => 1
  try_from_luv60 := fun _ _ _ => ()
  uvw64 := fun _ _ => (0, 0, 0)

/-- An instantiation in which every 1960 chromaticity has `v = 0`, the
degenerate case of the `cd` divisions, while CCT estimation still returns
4000 K. -/
def opsZ : ColorOps Unit Unit ℕ where
  set_illuminance := fun i _ => i
  xyz_from_spectrum := fun _ => ()
  xyz_with_sample := fun _ _ => ()
  cct := fun _ => Except.ok 4000
  planckian := fun _ => ()
  d_illuminant := fun _ => Except.ok ()
  uv60 := fun _ => (1, 0)
  y_of := fun _ => 1
  try_from_luv60 := fun _ _ _ => ()
  uvw64 := fun _ _ => (0, 0, 0)

/-- An instantiation in which CCT estimation fails with error code 7. -/
def opsCctErr : ColorOps Unit Unit ℕ where
  set_illuminance := fun i _ => i
  xyz_from_spectrum := fun _ => ()
  xyz_with_sample := fun _ _ => ()
  cct := fun _ => Except.error 7
  planckian := fun _ => ()
  d_illuminant := fun _ => Except.ok ()
  uv60 := fun _ => (1, 1)
  y_of := fun _ => 1
  try_from_luv60 := fun _ _ _ => ()
  uvw64 := fun _ _ => (0, 0, 0)

/-- An instantiation in which CCT estimation returns 6000 K (daylight branch)
and daylight construction fails with error code 9. -/
def opsDayErr : ColorOps Unit Unit ℕ where
  set_illuminance := fun i _ => i
  xyz_from_spectrum := fun _ => ()
  xyz_with_sample := fun _ _ => ()
  cct := fun _ => Except.ok 6000
  planckian := fun _ => ()
  d_illuminant := fun _ => Except.error 9
  uv60 := fun _ => (1, 1)
  y_of := fun _ => 1
  try_from_luv60 := fun _ _ _ => ()
  uvw64 := fun _ _ => (0, 0, 0)

/-! ## `stimulus.rs` -/

/-- Number of samples of the working spectral grid (380-780 nm at 1 nm). -/
def NS : ℕ := 401

/-- Modelled from the spec: the `Spectrum` type of `spectrum.rs` is not among
the two source files; per spec §3 it is "a function of wavelength sampled on
a uniform grid ..., represented as an ordered sequence of intensity values",
here with real-valued samples on the 401-point working grid. -/
structure Spectrum where
  vals : Fin NS → ℝ

/-- The part of `ObserverData` that `set_luminance` (stimulus.rs:25-29) reads:
row 1 of the observer matrix (the photopic weights) and `lumconst`. -/
structure ObserverData where
  row1 : Fin NS → ℝ
  lumconst : ℝ

/-- Tuple struct `pub struct Stimulus(pub(crate) Spectrum)` (stimulus.rs:14). -/
structure Stimulus where
  spectrum : Spectrum

/-- The luminance of a spectrum under an observer, the scalar
`(obs.data.row(1) * self.0.0 * obs.lumconst).x` computed inside
`set_luminance` (stimulus.rs:26): the row-vector/vector product is the sum of
the pointwise products. -/
noncomputable def luminance_of (obs : ObserverData) (s : Spectrum) : ℝ :=
  (∑ i, obs.row1 i * s.vals i) * obs.lumconst

/-- Method `Stimulus::set_luminance` (stimulus.rs:25-29): every sample is
multiplied in place by `l = luminance / (obs.data.row(1) * self.0.0 *
obs.lumconst).x`. -/
noncomputable def Stimulus.set_luminance (s : Stimulus) (obs : ObserverData)
    (luminance : ℝ) : Stimulus :=
  let l := luminance / luminance_of obs s.spectrum
  Stimulus.mk (Spectrum.mk (fun i => s.spectrum.vals i * l))

/-- Modelled from the spec: `impl Mul<f64> for Spectrum` lives outside the two
source files; spec §6 says `Spectrum` "supports ... arithmetic (scaling,
addition)", scaling every sample by the factor.  Right multiplication,
`self.0 * rhs`. -/
def Spectrum.mul_f64 (s : Spectrum) (f : ℝ) : Spectrum :=
  Spectrum.mk (fun i => s.vals i * f)

/-- Modelled from the spec: `impl Mul<Spectrum> for f64`, the mirrored scaling
`self * rhs.0`, every sample multiplied by the factor on the left. -/
def Spectrum.f64_mul (f : ℝ) (s : Spectrum) : Spectrum :=
  Spectrum.mk (fun i => f * s.vals i)

/-- Impl `Mul<f64> for Stimulus` (stimulus.rs:81-87): `Self(self.0 * rhs)`. -/
def Stimulus.mul_f64 (s : Stimulus) (f : ℝ) : Stimulus :=
  Stimulus.mk (s.spectrum.mul_f64 f)

/-- Impl `Mul<Stimulus> for f64` (stimulus.rs:89-95): `Stimulus(self * rhs.0)`. -/
def f64_mul_stimulus (f : ℝ) (s : Stimulus) : Stimulus :=
  Stimulus.mk (Spectrum.f64_mul f s.spectrum)

/-- Scaling every sample scales the luminance (linearity of the row-vector
product). -/
theorem luminance_of_scale (obs : ObserverData) (s : Spectrum) (l : ℝ) :
    luminance_of obs (Spectrum.mk (fun i => s.vals i * l)) =
      luminance_of obs s * l := by
  simp only [luminance_of]
  rw [show (∑ i, obs.row1 i * (s.vals i * l)) =
      (∑ i, obs.row1 i * s.vals i) * l from by
    rw [Finset.sum_mul]
    exact Finset.sum_congr rfl (fun i _ => (mul_assoc _ _ _).symm)]
  ring

/-! ## The claim theorems -/

/-- C1: when CCT estimation on the (normalized) test illuminant succeeds with
temperature `t`, the reference illuminant is the Planckian radiator at `t` if
`t ≤ 5000` and the CIE daylight-model illuminant at `t` otherwise, and both
the test illuminant and the chosen reference illuminant are rescaled to
illuminance 100 before any downstream tristimulus values are computed: the
successful result is exactly `ri_list` applied to `set_illuminance ill 100`
and the normalized reference. -/
theorem reference_selection_and_normalization {Illum XYZt Err : Type}
    (ops : ColorOps Illum XYZt Err) (ill : Illum) (t : ℝ)
    (h : ops.cct (ops.xyz_from_spectrum (ops.set_illuminance ill 100)) =
      Except.ok t) :
    (t ≤ 5000 →
      reference_illuminant ops t =
        Except.ok (ops.set_illuminance (ops.planckian t) 100) ∧
      try_from ops ill = Except.ok (ri_list ops (ops.set_illuminance ill 100)
        (ops.set_illuminance (ops.planckian t) 100))) ∧
    (¬ t ≤ 5000 → ∀ d : Illum, ops.d_illuminant t = Except.ok d →
      reference_illuminant ops t =
        Except.ok (ops.set_illuminance d 100) ∧
      try_from ops ill = Except.ok (ri_list ops (ops.set_illuminance ill 100)
        (ops.set_illuminance d 100))) := by
  constructor
  · intro hle
    have hr : reference_illuminant ops t =
        Except.ok (ops.set_illuminance (ops.planckian t) 100) :=
      reference_illuminant_planck hle
    exact ⟨hr, try_from_ok h hr⟩
  · intro hgt d hd
    have hr : reference_illuminant ops t =
        Except.ok (ops.set_illuminance d 100) := by
      rw [reference_illuminant_daylight hgt, hd]
      rfl
    exact ⟨hr, try_from_ok h hr⟩

theorem reference_selection_witness :
    reference_illuminant opsP (4000 : ℝ) = Except.ok () ∧
    try_from opsP () = Except.ok (ri_list opsP () ()) := by
  have h := (reference_selection_and_normalization opsP () 4000 rfl).1
    (by norm_num)
  exact ⟨h.1, h.2⟩

/-- C2: for every 1960 UCS chromaticity `(u, v)` with `v ≠ 0` the adaptation
coefficients computed by `cd` are `c = (4 − u − 10v)/v` and
`d = (1.708v − 1.481u + 0.404)/v`, and for every triple of coefficient pairs
the adapted chromaticity computed by `uv_kries` is
`u' = (10.872 + 0.404(cr/ct)cti − 4(dr/dt)dti)/den` and `v' = 5.520/den`
with `den = 16.518 + 1.481(cr/ct)cti − (dr/dt)dti`. -/
theorem cd_uv_kries_formulas (u v : ℝ) (hv : v ≠ 0) :
    cd (u, v) = ((4 - u - 10 * v) / v, (1.708 * v - 1.481 * u + 0.404) / v) ∧
    ∀ ct dt cr dr cti dti : ℝ,
      uv_kries (ct, dt) (cr, dr) (cti, dti) =
        ((10.872 + 0.404 * (cr / ct) * cti - 4 * (dr / dt) * dti) /
            (16.518 + 1.481 * (cr / ct) * cti - (dr / dt) * dti),
          5.520 / (16.518 + 1.481 * (cr / ct) * cti - (dr / dt) * dti)) :=
  ⟨rfl, fun _ _ _ _ _ _ => rfl⟩

theorem cd_uv_kries_witness :
    cd (1, 2) = ((4 - 1 - 10 * 2) / 2, (1.708 * 2 - 1.481 * 1 + 0.404) / 2) ∧
    uv_kries (1, 1) (1, 1) (1, 1) =
      ((10.872 + 0.404 * (1 / 1) * 1 - 4 * (1 / 1) * 1) /
          (16.518 + 1.481 * (1 / 1) * 1 - (1 / 1) * 1),
        5.520 / (16.518 + 1.481 * (1 / 1) * 1 - (1 / 1) * 1)) := by
  have h := cd_uv_kries_formulas 1 2 two_ne_zero
  exact ⟨h.1, h.2 1 1 1 1 1 1⟩

/-- C3: every sample's index is `Ri = 100 − 4.6·ΔE` where `ΔE` is the
Euclidean distance between the adapted sample's and the reference sample's
U*V*W* coordinates, both taken relative to the reference illuminant's white
point `xyz_ref`; `Ri ≤ 100`, `Ri = 100` exactly when `ΔE = 0`, and no
clamping is applied: `ri_sample` takes values below any bound. -/
theorem ri_index_formula :
    (∀ {Illum XYZt Err : Type} (ops : ColorOps Illum XYZt Err)
      (cdt cdr : ℝ × ℝ) (xyz_ref xyzr xyzd : XYZt),
      ri_sample ops cdt cdr xyz_ref xyzr xyzd =
        100 - 4.6 * Real.sqrt
          (((ops.uvw64 (xyz_vk ops cdt cdr xyzd) xyz_ref).1 -
              (ops.uvw64 xyzr xyz_ref).1) ^ 2 +
            ((ops.uvw64 (xyz_vk ops cdt cdr xyzd) xyz_ref).2.1 -
              (ops.uvw64 xyzr xyz_ref).2.1) ^ 2 +
            ((ops.uvw64 (xyz_vk ops cdt cdr xyzd) xyz_ref).2.2 -
              (ops.uvw64 xyzr xyz_ref).2.2) ^ 2)) ∧
    (∀ {Illum XYZt Err : Type} (ops : ColorOps Illum XYZt Err)
      (cdt cdr : ℝ × ℝ) (xyz_ref xyzr xyzd : XYZt),
      ri_sample ops cdt cdr xyz_ref xyzr xyzd ≤ 100 ∧
      (ri_sample ops cdt cdr xyz_ref xyzr xyzd = 100 ↔
        Real.sqrt
          (((ops.uvw64 (xyz_vk ops cdt cdr xyzd) xyz_ref).1 -
              (ops.uvw64 xyzr xyz_ref).1) ^ 2 +
            ((ops.uvw64 (xyz_vk ops cdt cdr xyzd) xyz_ref).2.1 -
              (ops.uvw64 xyzr xyz_ref).2.1) ^ 2 +
            ((ops.uvw64 (xyz_vk ops cdt cdr xyzd) xyz_ref).2.2 -
              (ops.uvw64 xyzr xyz_ref).2.2) ^ 2) = 0)) ∧
    ∀ B : ℝ, ∃ (ops : ColorOps Unit (ℝ × ℝ × ℝ) Unit) (cdt cdr : ℝ × ℝ)
      (xyz_ref xyzr xyzd : ℝ × ℝ × ℝ),
      ri_sample ops cdt cdr xyz_ref xyzr xyzd < B := by
  refine ⟨fun ops cdt cdr xyz_ref xyzr xyzd => rfl, ?_, ?_⟩
  · intro Illum XYZt Err ops cdt cdr xyz_ref xyzr xyzd
    have hnn : 0 ≤ Real.sqrt
        (((ops.uvw64 (xyz_vk ops cdt cdr xyzd) xyz_ref).1 -
            (ops.uvw64 xyzr xyz_ref).1) ^ 2 +
          ((ops.uvw64 (xyz_vk ops cdt cdr xyzd) xyz_ref).2.1 -
            (ops.uvw64 xyzr xyz_ref).2.1) ^ 2 +
          ((ops.uvw64 (xyz_vk ops cdt cdr xyzd) xyz_ref).2.2 -
            (ops.uvw64 xyzr xyz_ref).2.2) ^ 2) := Real.sqrt_nonneg _
    constructor
    · simp only [ri_sample]
      nlinarith
    · simp only [ri_sample]
      rw [sub_eq_self, mul_eq_zero]
      constructor
      · rintro (h46 | hs)
        · norm_num at h46
        · exact hs
      · intro hs
        exact Or.inr hs
  · intro B
    set M : ℝ := max ((100 - B) / 4.6 + 1) 0 with hM
    have hM0 : 0 ≤ M := le_max_right _ _
    have hMgt : (100 - B) / 4.6 < M :=
      lt_of_lt_of_le (by linarith) (le_max_left _ _)
    refine ⟨({ set_illuminance := fun i _ => i
               xyz_from_spectrum := fun _ => (0, 0, 0)
               xyz_with_sample := fun _ _ => (0, 0, 0)
               cct := fun _ => Except.ok 0
               planckian := fun _ => ()
               d_illuminant := fun _ => Except.ok ()
               uv60 := fun _ => (0, 1)
               y_of := fun _ => 0
               try_from_luv60 := fun _ _ _ => (M, 0, 0)
               uvw64 := fun x _ => x } : ColorOps Unit (ℝ × ℝ × ℝ) Unit),
      (1, 1), (1, 1), (0, 0, 0), (0, 0, 0), (0, 0, 0), ?_⟩
    show (100 : ℝ) - 4.6 * Real.sqrt
        ((M - 0) ^ 2 + ((0 : ℝ) - 0) ^ 2 + ((0 : ℝ) - 0) ^ 2) < B
    rw [show (M - 0) ^ 2 + ((0 : ℝ) - 0) ^ 2 + ((0 : ℝ) - 0) ^ 2 = M ^ 2 by
      ring]
    rw [Real.sqrt_sq hM0]
    have h2 : 100 - B < M * 4.6 :=
      (div_lt_iff₀ (by norm_num : (0 : ℝ) < 4.6)).mp hMgt
    linarith

/-- C4: for every instantiation of the external operations and every input
illuminant, the computation either fails with an error — producing no Ri
values at all — or succeeds with a list of exactly `N_TCS = 14` values whose
`i`-th element is the Ri of TCS sample `i` (dataset order). -/
theorem ri_output_shape {Illum XYZt Err : Type}
    (ops : ColorOps Illum XYZt Err) (ill : Illum) :
    (∃ e : Err, try_from ops ill = Except.error e) ∨
    (∃ ill_ref : Illum,
      try_from ops ill =
        Except.ok (ri_list ops (ops.set_illuminance ill 100) ill_ref) ∧
      (ri_list ops (ops.set_illuminance ill 100) ill_ref).length = N_TCS ∧
      ∀ i : Fin N_TCS,
        (ri_list ops (ops.set_illuminance ill 100) ill_ref).get
            (Fin.cast ri_list_length.symm i) =
          ri_sample ops
            (cd (ops.uv60 (ops.xyz_from_spectrum
              (ops.set_illuminance ill 100))))
            (cd (ops.uv60 (ops.xyz_from_spectrum ill_ref)))
            (ops.xyz_from_spectrum ill_ref)
            (ops.xyz_with_sample ill_ref (TCS i))
            (ops.xyz_with_sample (ops.set_illuminance ill 100) (TCS i))) := by
  cases hc : ops.cct (ops.xyz_from_spectrum (ops.set_illuminance ill 100)) with
  | error e => exact Or.inl ⟨e, try_from_cct_error hc⟩
  | ok t =>
    cases hr : reference_illuminant ops t with
    | error e => exact Or.inl ⟨e, try_from_ref_error hc hr⟩
    | ok r =>
      exact Or.inr ⟨r, try_from_ok hc hr, ri_list_length,
        fun i => ri_list_get ops (ops.set_illuminance ill 100) r i⟩

/-- C5: a failure of CCT estimation, or of daylight-model construction on the
above-5000 K branch, is returned to the caller unchanged — the very error
value surfaces as the result, with no retry and no substituted default. -/
theorem error_propagation_unchanged {Illum XYZt Err : Type}
    (ops : ColorOps Illum XYZt Err) (ill : Illum) :
    (∀ e : Err,
      ops.cct (ops.xyz_from_spectrum (ops.set_illuminance ill 100)) =
        Except.error e →
      try_from ops ill = Except.error e) ∧
    (∀ (t : ℝ) (e : Err),
      ops.cct (ops.xyz_from_spectrum (ops.set_illuminance ill 100)) =
        Except.ok t →
      ¬ t ≤ 5000 →
      ops.d_illuminant t = Except.error e →
      try_from ops ill = Except.error e) := by
  constructor
  · intro e he
    exact try_from_cct_error he
  · intro t e ht hgt hd
    refine try_from_ref_error ht ?_
    rw [reference_illuminant_daylight hgt, hd]
    rfl

theorem error_propagation_witness :
    try_from opsCctErr () = Except.error 7 ∧
    try_from opsDayErr () = Except.error 9 := by
  refine ⟨(error_propagation_unchanged opsCctErr ()).1 7 rfl, ?_⟩
  exact (error_propagation_unchanged opsDayErr ()).2 6000 9 rfl
    (by norm_num) rfl

/-- C6 counterexample: an instantiation in which every 1960 chromaticity
involved in the von Kries step has `v` component `0` — the degenerate case of
the divisions in `cd` — and yet `try_from` returns `Except.ok`, not a
computation error: the code contains no division-by-zero check. -/
theorem zero_v_not_an_error :
    (∀ x : Unit, (opsZ.uv60 x).2 = 0) ∧
    try_from opsZ () = Except.ok (ri_list opsZ () ()) := by
  refine ⟨fun _ => rfl, ?_⟩
  exact try_from_ok (t := 4000) rfl (reference_illuminant_planck (by norm_num))

/-- C6 amended: the computation performs the adaptation divisions without any
zero check; an error is returned only when CCT estimation fails or when
daylight-model construction fails on the above-5000 K branch — a zero `v`
chromaticity component never surfaces as an error. -/
theorem errors_only_from_cct_or_daylight {Illum XYZt Err : Type}
    (ops : ColorOps Illum XYZt Err) (ill : Illum) (e : Err)
    (h : try_from ops ill = Except.error e) :
    ops.cct (ops.xyz_from_spectrum (ops.set_illuminance ill 100)) =
      Except.error e ∨
    ∃ t : ℝ,
      ops.cct (ops.xyz_from_spectrum (ops.set_illuminance ill 100)) =
        Except.ok t ∧
      ¬ t ≤ 5000 ∧ ops.d_illuminant t = Except.error e := by
  cases hc : ops.cct (ops.xyz_from_spectrum (ops.set_illuminance ill 100)) with
  | error e2 =>
    rw [try_from_cct_error hc] at h
    exact Or.inl (congrArg Except.error (Except.error.inj h))
  | ok t =>
    right
    by_cases hle : t ≤ 5000
    · exfalso
      rw [try_from_ok hc (reference_illuminant_planck hle)] at h
      exact Except.noConfusion h
    · cases hd : ops.d_illuminant t with
      | error e2 =>
        have hr : reference_illuminant ops t = Except.error e2 := by
          rw [reference_illuminant_daylight hle, hd]
          rfl
        rw [try_from_ref_error hc hr] at h
        have he : e2 = e := Except.error.inj h
        subst he
        exact ⟨t, rfl, hle, hd⟩
      | ok d =>
        exfalso
        have hr : reference_illuminant ops t =
            Except.ok (ops.set_illuminance d 100) := by
          rw [reference_illuminant_daylight hle, hd]
          rfl
        rw [try_from_ok hc hr] at h
        exact Except.noConfusion h

theorem errors_only_witness :
    opsCctErr.cct (opsCctErr.xyz_from_spectrum
        (opsCctErr.set_illuminance () 100)) = Except.error 7 ∨
    ∃ t : ℝ,
      opsCctErr.cct (opsCctErr.xyz_from_spectrum
        (opsCctErr.set_illuminance () 100)) = Except.ok t ∧
      ¬ t ≤ 5000 ∧ opsCctErr.d_illuminant t = Except.error 7 :=
  errors_only_from_cct_or_daylight opsCctErr () 7 (try_from_cct_error rfl)

/-- C7: the CRI computation is deterministic — the embedded pipeline is a
pure function of the external operations and the input illuminant, so two
invocations on the same input produce identical results (the same list of Ri
values, or the same error). -/
theorem cri_deterministic {Illum XYZt Err : Type}
    (ops : ColorOps Illum XYZt Err) (ill : Illum) :
    try_from ops ill = try_from ops ill := rfl

/-- C8: the TCS dataset consists of exactly `N_TCS = 14` colorants; the
embedded 5 nm table has 14 columns of 81 samples each, colorant `i` is
exactly the linear interpolation of column `i` onto the 401-point
380–780 nm working grid, and — the dataset being a constant of the program —
every computation reads the same values. -/
theorem tcs_dataset_shape :
    TCS5.length = N_TCS ∧
    TCS5.map List.length = List.replicate N_TCS 81 ∧
    (∀ i : Fin N_TCS,
      TCS i = Colorant.mk (linear_interpolate (TCS5.getD i.val []))) ∧
    (∀ i : Fin N_TCS, (TCS i).vals.length = 401) := by
  refine ⟨rfl, rfl, fun i => rfl, fun i => ?_⟩
  simp [TCS, linear_interpolate]

/-- A one-weight observer used to evaluate the stimulus theorems. -/
def obs1 : ObserverData where
  row1 := fun _ => 1
  lumconst := 1

/-- A flat unit stimulus used to evaluate the stimulus theorems. -/
def stim1 : Stimulus where
  spectrum := Spectrum.mk (fun _ => 1)

/-- C9: for every stimulus with non-zero luminance under the observer,
`set_luminance obs L` returns the stimulus with every spectral sample
multiplied by the single factor `L / luminance`, and the result's luminance
under the same observer is exactly `L`. -/
theorem set_luminance_spec (s : Stimulus) (obs : ObserverData) (L : ℝ)
    (h : luminance_of obs s.spectrum ≠ 0) :
    s.set_luminance obs L = Stimulus.mk (Spectrum.mk
      (fun i => s.spectrum.vals i * (L / luminance_of obs s.spectrum))) ∧
    luminance_of obs (s.set_luminance obs L).spectrum = L := by
  refine ⟨rfl, ?_⟩
  show luminance_of obs (Spectrum.mk
    (fun i => s.spectrum.vals i * (L / luminance_of obs s.spectrum))) = L
  rw [luminance_of_scale]
  field_simp

theorem set_luminance_witness :
    luminance_of obs1 stim1.spectrum ≠ 0 ∧
    luminance_of obs1 (stim1.set_luminance obs1 50).spectrum = 50 := by
  have hv : luminance_of obs1 stim1.spectrum = 401 := by
    simp only [luminance_of, obs1, stim1, one_mul, mul_one, Finset.sum_const,
      Finset.card_univ, Fintype.card_fin, nsmul_eq_mul, NS]
    norm_num
  have hne : luminance_of obs1 stim1.spectrum ≠ 0 := by
    rw [hv]
    norm_num
  exact ⟨hne, (set_luminance_spec stim1 obs1 50 hne).2⟩

/-- C10: scalar multiplication of a `Stimulus` commutes — `s * f`
(`Mul<f64> for Stimulus`) and `f * s` (`Mul<Stimulus> for f64`) produce
stimuli with identical spectra. -/
theorem stimulus_scalar_mul_commutes (s : Stimulus) (f : ℝ) :
    Stimulus.mul_f64 s f = f64_mul_stimulus f s := by
  show Stimulus.mk (Spectrum.mk (fun i => s.spectrum.vals i * f)) =
    Stimulus.mk (Spectrum.mk (fun i => f * s.spectrum.vals i))
  have hs : (fun i => s.spectrum.vals i * f) =
      (fun i => f * s.spectrum.vals i) := by
    funext i
    exact mul_comm _ _
  rw [hs]

end Ciebase
